import Mathlib

/-!
Verification of the sailing SPH simulation against its specification.

The definitions below are a shallow embedding of the Rust sources:

* src/simulation/physics_config.rs — material types, interaction profiles,
  the interaction table and its default construction;
* src/simulation/input.rs — keyboard sail control;
* src/simulation/setup.rs — bond-array construction and buffer sizes;
* src/simulation/systems.rs — the per-frame compute node SphPhysicsNode::run,
  modelled as the list of GPU commands it encodes;
* src/tests/physics_regression.rs — the offline parameter validation.

Rust f32 values are modelled as rationals: every construction in scope only
stores literals and compares them (no accumulating arithmetic), and the few
literals that are not exactly representable in binary f32 (0.03, 0.999, 0.99)
sit far from the bounds they are compared against, so every comparison proved
here agrees with its f32 counterpart.
-/

namespace Sailing

/-- Material type indices for interaction table lookup
(physics_config.rs, repr(u32) enum MaterialType). -/
inductive MaterialType
  | Water
  | Air
  | Hull
  | Sail
  | Mast
deriving DecidableEq, Fintype, Repr

namespace MaterialType

/-- Discriminant of the repr(u32) enum: Water=0, Air=1, Hull=2, Sail=3, Mast=4. -/
def toNat : MaterialType → Nat
  | Water => 0
  | Air => 1
  | Hull => 2
  | Sail => 3
  | Mast => 4

/-- Number of material types (MaterialType::COUNT). -/
def COUNT : Nat := 5

/-- MaterialType::from_layer_mask. The u32 mask is modelled as a Nat;
the bit tests use the same bitwise-and expressions as the source. -/
def from_layer_mask (mask : Nat) : MaterialType :=
  if mask &&& 1 ≠ 0 then Water
  else if mask &&& 2 ≠ 0 then Air
  else if mask &&& 4 ≠ 0 then Hull
  else if mask &&& 8 ≠ 0 then Sail
  else Mast

end MaterialType

/-- Linear repulsion ramp selector (physics_config.rs mod repulsion_ramp). -/
def repulsionRampLINEAR : Nat := 0

/-- Quadratic repulsion ramp selector. -/
def repulsionRampQUADRATIC : Nat := 1

/-- InteractionProfile (physics_config.rs): repulsion strength, radius,
ramp selector and alignment padding. -/
structure InteractionProfile where
  repulsion_strength : ℚ
  repulsion_radius : ℚ
  repulsion_ramp : Nat
  padding : Nat
deriving DecidableEq, Repr

namespace InteractionProfile

/-- Default::default for InteractionProfile. -/
def default : InteractionProfile :=
  { repulsion_strength := 0
    repulsion_radius := 0
    repulsion_ramp := repulsionRampQUADRATIC
    padding := 0 }

/-- InteractionProfile::new. -/
def new (strength radius : ℚ) (ramp : Nat) : InteractionProfile :=
  { repulsion_strength := strength
    repulsion_radius := radius
    repulsion_ramp := ramp
    padding := 0 }

/-- InteractionProfile::none. -/
def none : InteractionProfile := default

end InteractionProfile

/-- InteractionTable (physics_config.rs): 5×5 profile matrix indexed by
type_a * 5 + type_b, plus the global SPH parameters. -/
structure InteractionTable where
  profiles : Fin 25 → InteractionProfile
  sph_viscosity : ℚ
  sph_pressure_stiffness : ℚ
  sph_close_repulsion : ℚ
  xsph_epsilon : ℚ
  velocity_damping : ℚ
  pressure_cap : ℚ
deriving DecidableEq

namespace InteractionTable

/-- InteractionTable::index: the flat profile index of a material pair. -/
def index (a b : MaterialType) : Fin 25 :=
  ⟨a.toNat * MaterialType.COUNT + b.toNat, by cases a <;> cases b <;> decide⟩

/-- InteractionTable::set: writes the profile at (a,b) and then at (b,a). -/
def set (t : InteractionTable) (a b : MaterialType) (profile : InteractionProfile) :
    InteractionTable :=
  { t with
    profiles :=
      Function.update (Function.update t.profiles (index a b) profile)
        (index b a) profile }

/-- InteractionTable::get. -/
def get (t : InteractionTable) (a b : MaterialType) : InteractionProfile :=
  t.profiles (index a b)

end InteractionTable

/-- The canonical physics configuration (physics_config.rs,
fn default_interaction_table), as the exact sequence of set calls performed
on the all-none initial table. Global f32 constants with integral values are
written as integers; 0.5 and 0.999 are the exact decimal literals. -/
def default_interaction_table : InteractionTable :=
  let table : InteractionTable :=
    { profiles := fun _ => InteractionProfile.none
      sph_viscosity := 2
      sph_pressure_stiffness := 100
      sph_close_repulsion := 50
      xsph_epsilon := 0.5
      velocity_damping := 0.999
      pressure_cap := 2000 }
  let t1 := table.set .Water .Hull (.new 100000 12 repulsionRampQUADRATIC)
  let t2 := t1.set .Air .Hull (.new 2000000 20 repulsionRampLINEAR)
  let t3 := t2.set .Air .Sail (.new 25000 15 repulsionRampQUADRATIC)
  let t4 := t3.set .Water .Sail (.new 50000 10 repulsionRampQUADRATIC)
  let t5 := t4.set .Water .Mast .none
  let t6 := t5.set .Air .Mast .none
  let t7 := t6.set .Hull .Mast .none
  let t8 := t7.set .Sail .Mast .none
  let t9 := t8.set .Water .Water .none
  let t10 := t9.set .Air .Air .none
  let t11 := t10.set .Hull .Hull .none
  let t12 := t11.set .Sail .Sail .none
  let t13 := t12.set .Mast .Mast .none
  t13.set .Hull .Sail .none

/-- Symmetry of an interaction table: the profile stored at (a,b) equals
the one stored at (b,a) for every material pair. -/
def IsSymm (t : InteractionTable) : Prop :=
  ∀ a b : MaterialType, t.get a b = t.get b a

/-- One InteractionTable::set call, as data (a, b, profile); a list of such
calls applied in order by folding set. -/
def applyCalls (calls : List (MaterialType × MaterialType × InteractionProfile))
    (t : InteractionTable) : InteractionTable :=
  calls.foldl (fun acc c => acc.set c.1 c.2.1 c.2.2) t

/-- The flat index determines the material pair uniquely. -/
theorem index_inj (a b c d : MaterialType) :
    InteractionTable.index a b = InteractionTable.index c d ↔ a = c ∧ b = d := by
  revert a b c d; decide

/-- Reading a pair after a set call: the two written slots return the new
profile, every other slot is untouched. -/
theorem get_set (t : InteractionTable) (a b x y : MaterialType)
    (p : InteractionProfile) :
    (t.set a b p).get x y =
      if x = b ∧ y = a then p
      else if x = a ∧ y = b then p
      else t.get x y := by
  unfold InteractionTable.set InteractionTable.get
  simp only [Function.update_apply, index_inj]

/-- InteractionTable::set preserves symmetry. -/
theorem set_preserves_symm (t : InteractionTable) (h : IsSymm t)
    (a b : MaterialType) (p : InteractionProfile) : IsSymm (t.set a b p) := by
  intro x y
  rw [get_set, get_set]
  by_cases h1 : x = b ∧ y = a
  · rw [if_pos h1]
    by_cases h1b : y = b ∧ x = a
    · rw [if_pos h1b]
    · rw [if_neg h1b, if_pos ⟨h1.2, h1.1⟩]
  · by_cases h2 : x = a ∧ y = b
    · rw [if_neg h1, if_pos h2, if_pos ⟨h2.2, h2.1⟩]
    · rw [if_neg h1, if_neg h2, if_neg (fun hc => h2 ⟨hc.2, hc.1⟩),
        if_neg (fun hc => h1 ⟨hc.2, hc.1⟩)]
      exact h x y

-- ==================== Sail input (input.rs) ====================

/-- Rust f32::clamp semantics for ordered, non-NaN arguments:
min if below min, max if above max, the value otherwise. -/
def rustClamp (x lo hi : ℚ) : ℚ :=
  if x < lo then lo else if x > hi then hi else x

/-- ROTATION_SPEED (input.rs). The f32 literal 0.03 is modelled exactly;
the clamp-range property proved about handle_sail_input does not depend on
the literal's f32 rounding. -/
def ROTATION_SPEED : ℚ := 0.03

/-- MAX_ANGLE (input.rs), exactly representable in f32. -/
def MAX_ANGLE : ℚ := 1.5

/-- handle_sail_input (input.rs): the new SailControl.angle produced from the
previous angle and the pressed state of KeyA / KeyD. -/
def handle_sail_input (pressedA pressedD : Bool) (angle : ℚ) : ℚ :=
  let a1 := if pressedA then angle - ROTATION_SPEED else angle
  let a2 := if pressedD then a1 + ROTATION_SPEED else a1
  rustClamp a2 (-MAX_ANGLE) MAX_ANGLE

/-- Rust clamp lands in the interval whenever the bounds are ordered. -/
theorem rustClamp_mem (x lo hi : ℚ) (h : lo ≤ hi) :
    lo ≤ rustClamp x lo hi ∧ rustClamp x lo hi ≤ hi := by
  unfold rustClamp
  split_ifs <;> constructor <;> linarith

-- ==================== Buffers and grid (setup.rs, resources.rs) ====================

/-- PARTICLE_COUNT (setup.rs). -/
def PARTICLE_COUNT : Nat := 10000

/-- BOND_COUNT, the fixed bond capacity B (setup.rs). -/
def BOND_COUNT : Nat := 20000

/-- GridParams (resources.rs): the fields the compute node reads. -/
structure GridParams where
  cell_size : ℚ
  grid_width : Nat
  grid_height : Nat
  grid_origin_x : ℚ
  grid_origin_y : ℚ

/-- GridParams::default (resources.rs): cell size 20 over a 1280×720 world,
width and height via f32 ceil of exact divisions. -/
def GridParams.default : GridParams :=
  let cell_size : ℚ := 20
  { cell_size := cell_size
    grid_width := (Int.ceil ((1280 : ℚ) / cell_size)).toNat
    grid_height := (Int.ceil ((720 : ℚ) / cell_size)).toNat
    grid_origin_x := -640
    grid_origin_y := -360 }

-- ==================== Compute node (systems.rs) ====================

/-- GPU buffers bound by the compute passes (setup.rs resources). -/
inductive BufName
  | particle
  | sortedIndex
  | cellCounts
  | cellOffsets
  | gridParams
  | simParams
  | bond
  | force
deriving DecidableEq, BEq, Repr, Fintype

/-- The compute passes dispatched by SphPhysicsNode::run, in declaration
order; prefixSumRestore is the second dispatch of the prefix_sum pipeline
(the Prefix Sum Restore Pass). -/
inductive Pass
  | cellId
  | clearCounts
  | countCells
  | prefixSumPass
  | scatter
  | prefixSumRestore
  | density
  | forces
  | bonds
  | physics
deriving DecidableEq, BEq, Repr, Fintype

/-- Buffers in the bind group each pass is dispatched with
(prepare_bind_groups in systems.rs; density and forces share the density
bind group, both prefix-sum passes share the prefix bind group). -/
def bindGroupBuffers : Pass → List BufName
  | .cellId => [.particle, .gridParams]
  | .clearCounts => [.particle, .cellCounts, .gridParams]
  | .countCells => [.particle, .cellCounts, .gridParams]
  | .prefixSumPass => [.cellCounts, .cellOffsets, .gridParams]
  | .scatter => [.particle, .cellOffsets, .sortedIndex]
  | .prefixSumRestore => [.cellCounts, .cellOffsets, .gridParams]
  | .density => [.particle, .sortedIndex, .cellOffsets, .gridParams, .simParams]
  | .forces => [.particle, .sortedIndex, .cellOffsets, .gridParams, .simParams]
  | .bonds => [.particle, .bond, .force]
  | .physics => [.particle, .simParams, .force]

/-- One command recorded on the encoder by SphPhysicsNode::run: a compute
dispatch or a buffer clear. -/
inductive Cmd
  | dispatch (pass : Pass) (workgroups : Nat)
  | clearBuffer (buf : BufName)
deriving DecidableEq, BEq, Repr

/-- particle_workgroup_count = (PARTICLE_COUNT + 63) / 64. -/
def particleWorkgroupCount : Nat := (PARTICLE_COUNT + 63) / 64

/-- bond_workgroup_count = (BOND_COUNT + 255) / 256. -/
def bondWorkgroupCount : Nat := (BOND_COUNT + 255) / 256

/-- cell_workgroup_count = (grid_width * grid_height + 255) / 256. -/
def cellWorkgroupCount (gp : GridParams) : Nat :=
  (gp.grid_width * gp.grid_height + 255) / 256

/-- Readiness of everything SphPhysicsNode::run demands before encoding a
frame: the three world resources and the nine cached compute pipelines. -/
structure NodeState where
  pipelinesRes : Bool
  bindGroupsRes : Bool
  forceBufferRes : Bool
  cellIdReady : Bool
  clearCountsReady : Bool
  countCellsReady : Bool
  prefixSumReady : Bool
  scatterReady : Bool
  densityReady : Bool
  forcesReady : Bool
  bondsReady : Bool
  physicsReady : Bool
deriving DecidableEq, Repr

/-- Placeholder for bevy's render_graph::NodeRunError; run never builds one. -/
inductive NodeRunError
  | nodeRunError
deriving DecidableEq, Repr

/-- The full frame: the command sequence SphPhysicsNode::run encodes when
every resource is ready, in source order (stages 1-8, with the force-buffer
clear issued between the Forces Pass and the Bonds Pass). -/
def frameCommands : List Cmd :=
  [ .dispatch .cellId particleWorkgroupCount
  , .dispatch .clearCounts (cellWorkgroupCount GridParams.default)
  , .dispatch .countCells particleWorkgroupCount
  , .dispatch .prefixSumPass 1
  , .dispatch .scatter particleWorkgroupCount
  , .dispatch .prefixSumRestore 1
  , .dispatch .density particleWorkgroupCount
  , .dispatch .forces particleWorkgroupCount
  , .clearBuffer .force
  , .dispatch .bonds bondWorkgroupCount
  , .dispatch .physics particleWorkgroupCount ]

/-- All twelve required resources are present. -/
def allReady (s : NodeState) : Bool :=
  s.pipelinesRes && s.bindGroupsRes && s.forceBufferRes &&
    s.cellIdReady && s.clearCountsReady && s.countCellsReady &&
    s.prefixSumReady && s.scatterReady && s.densityReady &&
    s.forcesReady && s.bondsReady && s.physicsReady

/-- SphPhysicsNode::run (systems.rs): each let-else guard returns Ok with
nothing encoded; once every guard passes, the whole frame is encoded. -/
def runNode (s : NodeState) : Except NodeRunError (List Cmd) :=
  if !s.pipelinesRes then .ok []
  else if !s.bindGroupsRes then .ok []
  else if !s.forceBufferRes then .ok []
  else if !s.cellIdReady then .ok []
  else if !s.clearCountsReady then .ok []
  else if !s.countCellsReady then .ok []
  else if !s.prefixSumReady then .ok []
  else if !s.scatterReady then .ok []
  else if !s.densityReady then .ok []
  else if !s.forcesReady then .ok []
  else if !s.bondsReady then .ok []
  else if !s.physicsReady then .ok []
  else .ok frameCommands

/-- The state in which every resource and pipeline is ready. -/
def allReadyState : NodeState :=
  ⟨true, true, true, true, true, true, true, true, true, true, true, true⟩

/-- Dispatch commands whose bind group contains the shared force buffer. -/
def writesForce : Cmd → Bool
  | .dispatch p _ => (bindGroupBuffers p).contains .force
  | .clearBuffer _ => false

-- ==================== Counting-sort builder stages ====================

/-- The buffers the counting-sort builder touches: per-cell counts, per-cell
offsets (with end sentinel), and the sorted-index permutation. -/
structure BuilderState where
  counts : List Nat
  offsets : List Nat
  sortedIndices : List Nat
deriving DecidableEq, Repr

/-- Modelled from the spec: shaders/prefix_sum.wgsl is not under src/; per
§4.2 step 3 the pass writes the exclusive prefix sum of the per-cell counts
(offsets[0] = 0, offsets[i+1] = offsets[i] + counts[i]) with the sentinel
end offset equal to the total count, reading only the counts buffer. -/
def exclusiveScan (counts : List Nat) : List Nat :=
  counts.scanl (· + ·) 0

/-- The Prefix Sum Pass (and the identical Restore pass): overwrites the
offsets buffer with the exclusive scan of the counts buffer, which its bind
group exposes read-only. -/
def prefixStage (s : BuilderState) : BuilderState :=
  { s with offsets := exclusiveScan s.counts }

/-- Modelled from the spec: shaders/scatter_sort.wgsl is not under src/; per
§4.2 step 4 each particle fetch-and-increments its cell's offset cursor and
stores its index at the fetched slot. Its bind group (systems.rs) holds only
particles, cell_offsets and sorted_indices — not the counts buffer. -/
def scatterFold (cells : List Nat) (offsets perm : List Nat) :
    List Nat × List Nat :=
  cells.enum.foldl
    (fun st ic =>
      let slot := st.1.getD ic.2 0
      (st.1.set ic.2 (slot + 1), st.2.set slot ic.1))
    (offsets, perm)

/-- The Scatter Pass: consumes the offsets as write cursors and fills the
permutation; the counts buffer is not in its bind group and is untouched. -/
def scatterStage (cells : List Nat) (s : BuilderState) : BuilderState :=
  let r := scatterFold cells s.offsets s.sortedIndices
  { s with offsets := r.1, sortedIndices := r.2 }

-- ==================== Bond array construction (setup.rs) ====================

/-- Bond record. The crate::resources::Bond declaration is not in the source
snapshot; its fields are taken from the struct literals that build every bond
in setup.rs: endpoints, rest length, stiffness, breaking strain, type tag,
active flag and alignment padding. -/
structure Bond where
  particle_a : Nat
  particle_b : Nat
  rest_length : ℚ
  stiffness : ℚ
  breaking_strain : ℚ
  bond_type : Nat
  is_active : Nat
  padding : Nat
deriving DecidableEq, Repr

/-- BOND_BREAKING_STRAIN (setup.rs). -/
def BOND_BREAKING_STRAIN : ℚ := 2

/-- HULL_STIFFNESS (BondBuffer::from_world). -/
def HULL_STIFFNESS : ℚ := 30000

/-- SAIL_STIFFNESS (BondBuffer::from_world). -/
def SAIL_STIFFNESS : ℚ := 15000

/-- MAST_STIFFNESS (BondBuffer::from_world). -/
def MAST_STIFFNESS : ℚ := 20000

/-- FUSE_STIFFNESS (BondBuffer::from_world). -/
def FUSE_STIFFNESS : ℚ := 100000

/-- FUSE_BREAKING_STRAIN (BondBuffer::from_world). -/
def FUSE_BREAKING_STRAIN : ℚ := 10

/-- scenarios::config constants used by the hull bond loops. -/
def cfgHULL_WIDTH : Nat := 40

/-- Hull grid height (scenarios::config). -/
def cfgHULL_HEIGHT : Nat := 10

/-- Hull particle spacing (scenarios::config). -/
def cfgHULL_SPACING : ℚ := 5

/-- Hurricane-scenario hull width (scenarios::hurricane_config). -/
def hcHULL_WIDTH : Nat := 20

/-- Hurricane-scenario hull height. -/
def hcHULL_HEIGHT : Nat := 5

/-- Mast cross-section grid size. -/
def hcMAST_GRID_SIZE : Nat := 3

/-- Mast particle spacing. -/
def hcMAST_SPACING : ℚ := 4

/-- Spar length in particles. -/
def hcSPAR_LENGTH : Nat := 10

/-- Spar depth in particles. -/
def hcSPAR_DEPTH : Nat := 2

/-- Sail width in particles. -/
def hcSAIL_WIDTH : Nat := 2

/-- Sail height in particles. -/
def hcSAIL_HEIGHT : Nat := 10

/-- Sail particle spacing. -/
def hcSAIL_SPACING : ℚ := 8

/-- diagonal_length = HULL_SPACING * 1.4142 (f32 literal modelled exactly;
never compared numerically in any claim). -/
def diagonalLength : ℚ := cfgHULL_SPACING * 1.4142

/-- An active bond as pushed by setup.rs (is_active = 1, _padding = 0). -/
def Bond.active (a b : Nat) (rest stiff strain : ℚ) (ty : Nat) : Bond :=
  { particle_a := a
    particle_b := b
    rest_length := rest
    stiffness := stiff
    breaking_strain := strain
    bond_type := ty
    is_active := 1
    padding := 0 }

/-- Hull bonds: the 40×10 grid loop with horizontal, vertical and the two
diagonal conditional pushes (setup.rs). -/
def hullGridBonds : List Bond :=
  (List.range cfgHULL_HEIGHT).flatMap fun y =>
    (List.range cfgHULL_WIDTH).flatMap fun x =>
      let idx := y * cfgHULL_WIDTH + x
      (if x + 1 < cfgHULL_WIDTH then
        [Bond.active idx (y * cfgHULL_WIDTH + (x + 1)) cfgHULL_SPACING
          HULL_STIFFNESS BOND_BREAKING_STRAIN 0] else []) ++
      (if y + 1 < cfgHULL_HEIGHT then
        [Bond.active idx ((y + 1) * cfgHULL_WIDTH + x) cfgHULL_SPACING
          HULL_STIFFNESS BOND_BREAKING_STRAIN 0] else []) ++
      (if x + 1 < cfgHULL_WIDTH ∧ y + 1 < cfgHULL_HEIGHT then
        [Bond.active idx ((y + 1) * cfgHULL_WIDTH + (x + 1)) diagonalLength
          HULL_STIFFNESS BOND_BREAKING_STRAIN 0] else []) ++
      (if 0 < x ∧ y + 1 < cfgHULL_HEIGHT then
        [Bond.active idx ((y + 1) * cfgHULL_WIDTH + (x - 1)) diagonalLength
          HULL_STIFFNESS BOND_BREAKING_STRAIN 0] else [])

/-- hurricane_hull_count = 20 * 5 particles. -/
def hurricaneHullCount : Nat := hcHULL_WIDTH * hcHULL_HEIGHT

/-- mast_start_idx. -/
def mastStartIdx : Nat := hurricaneHullCount

/-- mast_end_idx. -/
def mastEndIdx : Nat := mastStartIdx + hcMAST_GRID_SIZE * hcMAST_GRID_SIZE

/-- sail_start_idx, as computed (and used by the sail bond loop) in
setup.rs: the end of the mast block. -/
def sailStartIdx : Nat := mastEndIdx

/-- Mast bonds: the 3×3 grid with horizontal, vertical and one diagonal. -/
def mastGridBonds : List Bond :=
  (List.range hcMAST_GRID_SIZE).flatMap fun y =>
    (List.range hcMAST_GRID_SIZE).flatMap fun x =>
      let idx := mastStartIdx + y * hcMAST_GRID_SIZE + x
      (if x + 1 < hcMAST_GRID_SIZE then
        [Bond.active idx (mastStartIdx + y * hcMAST_GRID_SIZE + (x + 1))
          hcMAST_SPACING MAST_STIFFNESS BOND_BREAKING_STRAIN 0] else []) ++
      (if y + 1 < hcMAST_GRID_SIZE then
        [Bond.active idx (mastStartIdx + (y + 1) * hcMAST_GRID_SIZE + x)
          hcMAST_SPACING MAST_STIFFNESS BOND_BREAKING_STRAIN 0] else []) ++
      (if x + 1 < hcMAST_GRID_SIZE ∧ y + 1 < hcMAST_GRID_SIZE then
        [Bond.active idx (mastStartIdx + (y + 1) * hcMAST_GRID_SIZE + (x + 1))
          (hcMAST_SPACING * 1.4142) MAST_STIFFNESS BOND_BREAKING_STRAIN 0]
        else [])

/-- hull_center_idx = (HULL_HEIGHT/2)*HULL_WIDTH + HULL_WIDTH/2 = 50. -/
def hullCenterIdx : Nat := hcHULL_HEIGHT / 2 * hcHULL_WIDTH + hcHULL_WIDTH / 2

/-- mast_center_idx = mast_start + (3/2)*3 + 3/2 = 104. -/
def mastCenterIdx : Nat :=
  mastStartIdx + hcMAST_GRID_SIZE / 2 * hcMAST_GRID_SIZE + hcMAST_GRID_SIZE / 2

/-- Mast-hull fuse bonds: the main fuse plus the edge loops over
m_offset in [0, 2] and h_offset in [0, 1, -1], guarded by the hull range. -/
def fuseBonds : List Bond :=
  [Bond.active hullCenterIdx mastCenterIdx 0.1 FUSE_STIFFNESS
    FUSE_BREAKING_STRAIN 3] ++
  ([0, hcMAST_GRID_SIZE - 1].flatMap fun mo =>
    ([0, 1, -1] : List Int).flatMap fun ho =>
      let mast_idx := mastStartIdx + mo
      let hull_idx := ((hullCenterIdx : Int) + ho).toNat
      if hull_idx < hurricaneHullCount then
        [Bond.active hull_idx mast_idx hcMAST_SPACING FUSE_STIFFNESS
          FUSE_BREAKING_STRAIN 3]
      else [])

/-- Sail bonds: the 2×10 grid with horizontal, vertical and two diagonals,
based — as in the source — at sail_start_idx = 109. -/
def sailGridBonds : List Bond :=
  (List.range hcSAIL_HEIGHT).flatMap fun y =>
    (List.range hcSAIL_WIDTH).flatMap fun x =>
      let idx := sailStartIdx + y * hcSAIL_WIDTH + x
      (if x + 1 < hcSAIL_WIDTH then
        [Bond.active idx (sailStartIdx + y * hcSAIL_WIDTH + (x + 1))
          hcSAIL_SPACING SAIL_STIFFNESS BOND_BREAKING_STRAIN 1] else []) ++
      (if y + 1 < hcSAIL_HEIGHT then
        [Bond.active idx (sailStartIdx + (y + 1) * hcSAIL_WIDTH + x)
          hcSAIL_SPACING SAIL_STIFFNESS BOND_BREAKING_STRAIN 1] else []) ++
      (if x + 1 < hcSAIL_WIDTH ∧ y + 1 < hcSAIL_HEIGHT then
        [Bond.active idx (sailStartIdx + (y + 1) * hcSAIL_WIDTH + (x + 1))
          (hcSAIL_SPACING * 1.4142) SAIL_STIFFNESS BOND_BREAKING_STRAIN 1]
        else []) ++
      (if 0 < x ∧ y + 1 < hcSAIL_HEIGHT then
        [Bond.active idx (sailStartIdx + (y + 1) * hcSAIL_WIDTH + (x - 1))
          (hcSAIL_SPACING * 1.4142) SAIL_STIFFNESS BOND_BREAKING_STRAIN 1]
        else [])

/-- spar_start_idx = mast_start + 9 = 109. -/
def sparStartIdx : Nat := mastStartIdx + hcMAST_GRID_SIZE * hcMAST_GRID_SIZE

/-- Spar bonds: the 10×2 grid with horizontal, vertical, two diagonals and
the skip-2 vertical bond at doubled stiffness. -/
def sparGridBonds : List Bond :=
  (List.range hcSPAR_LENGTH).flatMap fun y =>
    (List.range hcSPAR_DEPTH).flatMap fun x =>
      let idx := sparStartIdx + y * hcSPAR_DEPTH + x
      (if x + 1 < hcSPAR_DEPTH then
        [Bond.active idx (sparStartIdx + y * hcSPAR_DEPTH + (x + 1))
          hcSAIL_SPACING MAST_STIFFNESS BOND_BREAKING_STRAIN 2] else []) ++
      (if y + 1 < hcSPAR_LENGTH then
        [Bond.active idx (sparStartIdx + (y + 1) * hcSPAR_DEPTH + x)
          hcSAIL_SPACING MAST_STIFFNESS BOND_BREAKING_STRAIN 2] else []) ++
      (if x + 1 < hcSPAR_DEPTH ∧ y + 1 < hcSPAR_LENGTH then
        [Bond.active idx (sparStartIdx + (y + 1) * hcSPAR_DEPTH + (x + 1))
          (hcSAIL_SPACING * 1.4142) MAST_STIFFNESS BOND_BREAKING_STRAIN 2]
        else []) ++
      (if 0 < x ∧ y + 1 < hcSPAR_LENGTH then
        [Bond.active idx (sparStartIdx + (y + 1) * hcSPAR_DEPTH + (x - 1))
          (hcSAIL_SPACING * 1.4142) MAST_STIFFNESS BOND_BREAKING_STRAIN 2]
        else []) ++
      (if y + 2 < hcSPAR_LENGTH then
        [Bond.active idx (sparStartIdx + (y + 2) * hcSPAR_DEPTH + x)
          (hcSAIL_SPACING * 2) (MAST_STIFFNESS * 2) BOND_BREAKING_STRAIN 2]
        else [])

/-- Mast-center-to-spar bonds. The rest length uses the f32 square root,
which has no exact rational embedding: the model is parametric in the float
square-root function fsqrt — no claim in scope depends on its values. -/
def mastSparBonds (fsqrt : ℚ → ℚ) : List Bond :=
  (List.range hcSPAR_LENGTH).map fun y =>
    let spar_left_idx := sparStartIdx + y * hcSPAR_DEPTH
    let y_offset := |(y : ℚ) - (hcSPAR_LENGTH : ℚ) / 2| * hcSAIL_SPACING
    let rest_len := fsqrt (hcSAIL_SPACING ^ 2 + y_offset ^ 2)
    Bond.active mastCenterIdx spar_left_idx (max rest_len hcSAIL_SPACING)
      FUSE_STIFFNESS BOND_BREAKING_STRAIN 2

/-- sail_start_idx_fixed = spar_start + 10*2 = 129. -/
def sailStartIdxFixed : Nat := sparStartIdx + hcSPAR_LENGTH * hcSPAR_DEPTH

/-- Sail-to-spar bonds: spar right column to sail left edge. -/
def sailSparBonds : List Bond :=
  (List.range hcSAIL_HEIGHT).map fun y =>
    Bond.active (sparStartIdx + y * hcSPAR_DEPTH + (hcSPAR_DEPTH - 1))
      (sailStartIdxFixed + y * hcSAIL_WIDTH) hcSAIL_SPACING
      (SAIL_STIFFNESS * 2) BOND_BREAKING_STRAIN 1

/-- All scenario bonds in push order (BondBuffer::from_world). -/
def generatedBonds (fsqrt : ℚ → ℚ) : List Bond :=
  hullGridBonds ++ mastGridBonds ++ fuseBonds ++ sailGridBonds ++
    sparGridBonds ++ mastSparBonds fsqrt ++ sailSparBonds

/-- The padding slot pushed by the while loop: all-zero, inactive. -/
def placeholderBond : Bond :=
  { particle_a := 0
    particle_b := 0
    rest_length := 0
    stiffness := 0
    breaking_strain := 0
    bond_type := 0
    is_active := 0
    padding := 0 }

/-- The full bond array uploaded to the GPU: scenario bonds padded with
placeholder slots until the fixed capacity BOND_COUNT is reached (the
pad-while loop in BondBuffer::from_world). -/
def bondArray (fsqrt : ℚ → ℚ) : List Bond :=
  generatedBonds fsqrt ++
    List.replicate (BOND_COUNT - (generatedBonds fsqrt).length) placeholderBond

set_option maxRecDepth 8000 in
theorem hullGridBonds_length : hullGridBonds.length = 1452 := by decide

theorem mastGridBonds_length : mastGridBonds.length = 16 := by decide

theorem fuseBonds_length : fuseBonds.length = 7 := by decide

theorem sailGridBonds_length : sailGridBonds.length = 46 := by decide

theorem sparGridBonds_length : sparGridBonds.length = 62 := by decide

theorem mastSparBonds_length (fsqrt : ℚ → ℚ) :
    (mastSparBonds fsqrt).length = 10 := by
  simp [mastSparBonds, hcSPAR_LENGTH]

theorem sailSparBonds_length : sailSparBonds.length = 10 := by decide

/-- The scenario generates 1603 bonds in total, for every square root. -/
theorem generatedBonds_length (fsqrt : ℚ → ℚ) :
    (generatedBonds fsqrt).length = 1603 := by
  unfold generatedBonds
  rw [List.length_append, List.length_append, List.length_append,
    List.length_append, List.length_append, List.length_append,
    hullGridBonds_length, mastGridBonds_length, fuseBonds_length,
    sailGridBonds_length, sparGridBonds_length, mastSparBonds_length,
    sailSparBonds_length]

-- ==================== Offline validation (tests/physics_regression.rs) ====================

/-- Per-profile checks of assert_interaction_table_stable: non-negative
strength, a positive strength forces a positive radius, and a Linear or
Quadratic ramp selector. -/
def ProfileOk (p : InteractionProfile) : Prop :=
  0 ≤ p.repulsion_strength ∧
    (0 < p.repulsion_strength → 0 < p.repulsion_radius) ∧
    p.repulsion_ramp ≤ 1

instance (p : InteractionProfile) : Decidable (ProfileOk p) := by
  unfold ProfileOk; infer_instance

/-- assert_interaction_table_stable as a predicate: the offline validation
aborts (assertion failure) exactly when this fails. -/
def TableStable (t : InteractionTable) : Prop :=
  0 < t.sph_viscosity ∧ t.sph_viscosity < 100 ∧
    0 < t.sph_pressure_stiffness ∧ t.sph_pressure_stiffness < 10000 ∧
    (0.9 : ℚ) < t.velocity_damping ∧ t.velocity_damping ≤ 1 ∧
    0 < t.pressure_cap ∧
    0 ≤ t.xsph_epsilon ∧ t.xsph_epsilon ≤ 1 ∧
    ∀ i : Fin 25, ProfileOk (t.profiles i)

end Sailing

namespace Sailing

-- ==================== Claim theorems (first group) ====================

/-- Claim C2: the default interaction table is symmetric — the profile at
(a,b) equals the profile at (b,a) for every material pair — and symmetry is
preserved by any sequence of InteractionTable::set calls applied to any
symmetric table. -/
theorem claim_C2_interaction_table_symmetric :
    IsSymm default_interaction_table ∧
      ∀ t : InteractionTable, IsSymm t →
        ∀ calls : List (MaterialType × MaterialType × InteractionProfile),
          IsSymm (applyCalls calls t) := by
  constructor
  · intro a b; cases a <;> cases b <;> rfl
  · intro t ht calls
    induction calls generalizing t with
    | nil => exact ht
    | cons c rest ih => exact ih _ (set_preserves_symm t ht c.1 c.2.1 c.2.2)

/-- Claim C2 witness: the preservation part applied to the default table
(symmetric by the first conjunct) and a concrete set call. -/
theorem claim_C2_witness :
    IsSymm (applyCalls
      [(MaterialType.Water, MaterialType.Hull, InteractionProfile.new 7 3 0)]
      default_interaction_table) :=
  claim_C2_interaction_table_symmetric.2 default_interaction_table
    claim_C2_interaction_table_symmetric.1 _

/-- Claim C3: every diagonal entry of the default interaction table has zero
repulsion strength — same-type pairs carry no direct table repulsion. -/
theorem claim_C3_same_type_zero_repulsion :
    ∀ t : MaterialType,
      (default_interaction_table.get t t).repulsion_strength = 0 := by
  intro t; cases t <;> rfl

/-- Claim C7: after any invocation of handle_sail_input — any previous angle,
any combination of pressed keys — the stored control angle lies within
[-1.5, 1.5] radians. -/
theorem claim_C7_sail_angle_clamped :
    ∀ (pressedA pressedD : Bool) (angle : ℚ),
      -(1.5 : ℚ) ≤ handle_sail_input pressedA pressedD angle ∧
        handle_sail_input pressedA pressedD angle ≤ (1.5 : ℚ) := by
  intro pa pd angle
  exact rustClamp_mem _ _ _ (by norm_num [MAX_ANGLE])

/-- Claim C8: the default-constructed parameter set satisfies all stated
bounds: 0 < viscosity < 100, 0 < pressure_stiffness < 10000,
0.99 ≤ velocity_damping ≤ 1, 0 ≤ xsph_epsilon ≤ 1, pressure_cap > 0. -/
theorem claim_C8_default_parameter_bounds :
    0 < default_interaction_table.sph_viscosity ∧
      default_interaction_table.sph_viscosity < 100 ∧
      0 < default_interaction_table.sph_pressure_stiffness ∧
      default_interaction_table.sph_pressure_stiffness < 10000 ∧
      (0.99 : ℚ) ≤ default_interaction_table.velocity_damping ∧
      default_interaction_table.velocity_damping ≤ 1 ∧
      0 ≤ default_interaction_table.xsph_epsilon ∧
      default_interaction_table.xsph_epsilon ≤ 1 ∧
      0 < default_interaction_table.pressure_cap := by
  have hv : default_interaction_table.sph_viscosity = 2 := rfl
  have hs : default_interaction_table.sph_pressure_stiffness = 100 := rfl
  have hd : default_interaction_table.velocity_damping = 0.999 := rfl
  have hx : default_interaction_table.xsph_epsilon = 0.5 := rfl
  have hp : default_interaction_table.pressure_cap = 2000 := rfl
  rw [hv, hs, hd, hx, hp]
  norm_num

/-- Bitwise-and with a power of two is nonzero exactly when that bit is set. -/
theorem land_two_pow_ne_zero (m i : Nat) :
    m &&& 2 ^ i ≠ 0 ↔ m.testBit i = true := by
  rw [Nat.and_two_pow]
  cases h : m.testBit i <;> simp

/-- Claim C10: from_layer_mask is total over all masks and resolves them by
fixed priority — bit 0 wins (Water), then bit 1 (Air), bit 2 (Hull),
bit 3 (Sail), and every remaining mask (including 0 and masks with only
higher bits set) maps to Mast; no mask is ever rejected. -/
theorem claim_C10_from_layer_mask_priority :
    ∀ mask : Nat,
      MaterialType.from_layer_mask mask =
        (if mask.testBit 0 then .Water
         else if mask.testBit 1 then .Air
         else if mask.testBit 2 then .Hull
         else if mask.testBit 3 then .Sail
         else .Mast) := by
  intro m
  have h0 := land_two_pow_ne_zero m 0
  have h1 := land_two_pow_ne_zero m 1
  have h2 := land_two_pow_ne_zero m 2
  have h3 := land_two_pow_ne_zero m 3
  norm_num at h0 h1 h2 h3
  unfold MaterialType.from_layer_mask
  cases hb0 : m.testBit 0 <;> cases hb1 : m.testBit 1 <;>
    cases hb2 : m.testBit 2 <;> cases hb3 : m.testBit 3 <;>
    simp_all

-- ==================== Claim theorems (compute node) ====================

/-- Claim C1 counterexample: in the fully-ready frame encoded by
SphPhysicsNode::run, the force-buffer clear sits at position 8, after the
Force Evaluator dispatch at position 7 — the accumulator is not cleared at
the start of the frame before the Force Evaluator pass is dispatched. -/
theorem claim_C1_counterexample :
    runNode allReadyState = .ok frameCommands ∧
      frameCommands.indexOf (Cmd.clearBuffer .force) = 8 ∧
      frameCommands.indexOf (Cmd.dispatch .forces particleWorkgroupCount) = 7 ∧
      ¬ frameCommands.indexOf (Cmd.clearBuffer .force) <
          frameCommands.indexOf (Cmd.dispatch .forces particleWorkgroupCount) := by
  refine ⟨rfl, ?_, ?_, ?_⟩ <;> decide

/-- Claim C1 (amended): the force buffer is cleared exactly once per frame,
between the Force Evaluator and the Bond Solver: the clear precedes every
dispatched pass whose bind group contains the force buffer (Bond Solver and
Integrator), while the Force Evaluator pass, dispatched before the clear, has
no binding to the force buffer at all. -/
theorem claim_C1_clear_before_force_writers :
    frameCommands.count (Cmd.clearBuffer .force) = 1 ∧
      (bindGroupBuffers .forces).contains .force = false ∧
      (∀ i : Fin frameCommands.length,
        writesForce (frameCommands.get i) = true →
          frameCommands.indexOf (Cmd.clearBuffer .force) < i.val) ∧
      frameCommands.indexOf (Cmd.dispatch .forces particleWorkgroupCount) <
        frameCommands.indexOf (Cmd.clearBuffer .force) := by
  refine ⟨by decide, by decide, ?_, by decide⟩
  decide

/-- Claim C1 witness: the amended ordering applied at the Bond Solver
dispatch, the first pass bound to the force buffer. -/
theorem claim_C1_witness :
    frameCommands.indexOf (Cmd.clearBuffer .force) < (9 : Nat) :=
  claim_C1_clear_before_force_writers.2.2.1 ⟨9, by decide⟩ (by decide)

/-- Claim C6: the per-frame compute node is all-or-nothing — run always
returns success, encoding nothing (no dispatch, no clear) when any of the
twelve required resources is missing, and encoding every stage of the frame
when all are ready. -/
theorem claim_C6_all_or_nothing :
    ∀ s : NodeState,
      runNode s = .ok (if allReady s then frameCommands else []) := by
  intro s
  rcases s with ⟨p, b, f, c1, c2, c3, c4, c5, c6, c7, c8, c9⟩
  cases p <;> cases b <;> cases f <;> cases c1 <;> cases c2 <;> cases c3 <;>
    cases c4 <;> cases c5 <;> cases c6 <;> cases c7 <;> cases c8 <;>
    cases c9 <;> rfl

/-- Claim C5: within one frame the prefix-sum restore pass, run after the
scatter stage on the unchanged counts buffer, reproduces the offsets of the
first prefix-sum pass element for element, even though scatter consumed the
offsets as write cursors; the dispatch order in the encoded frame is
prefix-sum, then scatter, then restore. -/
theorem claim_C5_prefix_sum_restore_deterministic :
    ∀ (cells : List Nat) (s0 : BuilderState),
      (scatterStage cells (prefixStage s0)).counts = (prefixStage s0).counts ∧
      (prefixStage (scatterStage cells (prefixStage s0))).offsets =
        (prefixStage s0).offsets ∧
      frameCommands.indexOf (Cmd.dispatch .prefixSumPass 1) <
        frameCommands.indexOf (Cmd.dispatch .scatter particleWorkgroupCount) ∧
      frameCommands.indexOf (Cmd.dispatch .scatter particleWorkgroupCount) <
        frameCommands.indexOf (Cmd.dispatch .prefixSumRestore 1) := by
  intro cells s0
  refine ⟨rfl, rfl, by decide, by decide⟩

/-- Claim C9: for every float square root, the bond array built at startup
has length exactly the fixed capacity BOND_COUNT = 20000, and every slot at
or beyond the generated scenario bonds is the inactive placeholder with zero
stiffness, breaking strain, rest length and active flag. -/
theorem claim_C9_bond_array_padded :
    ∀ fsqrt : ℚ → ℚ,
      (bondArray fsqrt).length = BOND_COUNT ∧
        placeholderBond.stiffness = 0 ∧
        placeholderBond.breaking_strain = 0 ∧
        placeholderBond.rest_length = 0 ∧
        placeholderBond.is_active = 0 ∧
        ∀ i : Nat, (generatedBonds fsqrt).length ≤ i → i < BOND_COUNT →
          (bondArray fsqrt)[i]? = some placeholderBond := by
  intro fsqrt
  have hlen := generatedBonds_length fsqrt
  refine ⟨?_, rfl, rfl, rfl, rfl, ?_⟩
  · unfold bondArray
    rw [List.length_append, List.length_replicate, hlen]
    decide
  · intro i h1 h2
    unfold bondArray
    rw [List.getElem?_append_right h1, List.getElem?_replicate, if_pos]
    rw [hlen] at h1 ⊢
    unfold BOND_COUNT at h2 ⊢
    omega

/-- Claim C9 witness: the identity in place of the square root, slot 1603 —
the first padding slot. -/
theorem claim_C9_witness :
    (bondArray (fun q => q)).length = BOND_COUNT ∧
      (bondArray (fun q => q))[1603]? = some placeholderBond :=
  ⟨(claim_C9_bond_array_padded (fun q => q)).1,
    (claim_C9_bond_array_padded (fun q => q)).2.2.2.2.2 1603
      (by simp [generatedBonds_length]) (by decide)⟩

/-- Claim C4 counterexample: constructing the violating configuration named
by the spec — a repulsion profile with positive strength but zero radius —
succeeds with no failure of any kind: InteractionProfile::new returns the
violating profile unchanged, it fails the structural invariant, and
InteractionTable::set stores it into the default table, which is also built
without any check. -/
theorem claim_C4_counterexample :
    InteractionProfile.new 5 0 repulsionRampLINEAR =
      { repulsion_strength := 5
        repulsion_radius := 0
        repulsion_ramp := repulsionRampLINEAR
        padding := 0 } ∧
      ¬ ProfileOk (InteractionProfile.new 5 0 repulsionRampLINEAR) ∧
      (default_interaction_table.set .Water .Hull
          (InteractionProfile.new 5 0 repulsionRampLINEAR)).get .Water .Hull =
        InteractionProfile.new 5 0 repulsionRampLINEAR := by
  refine ⟨rfl, by decide, by decide⟩

/-- Claim C4 (amended): no structural invariant is checked at construction —
the constructors are total and retain violating profiles — and the invariants
are instead enforced by the offline validation assert_interaction_table_stable
in the test suite, which hard-fails on a violating table and passes on the
default-constructed one. -/
theorem claim_C4_offline_validation :
    TableStable default_interaction_table ∧
      ¬ TableStable (default_interaction_table.set .Water .Hull
        (InteractionProfile.new 5 0 repulsionRampLINEAR)) := by
  constructor
  · have hv : default_interaction_table.sph_viscosity = 2 := rfl
    have hs : default_interaction_table.sph_pressure_stiffness = 100 := rfl
    have hd : default_interaction_table.velocity_damping = 0.999 := rfl
    have hx : default_interaction_table.xsph_epsilon = 0.5 := rfl
    have hp : default_interaction_table.pressure_cap = 2000 := rfl
    refine ⟨?_, ?_, ?_, ?_, ?_, ?_, ?_, ?_, ?_, ?_⟩ <;>
      first
        | (rw [hv]; norm_num)
        | (rw [hs]; norm_num)
        | (rw [hd]; norm_num)
        | (rw [hx]; norm_num)
        | (rw [hp]; norm_num)
        | decide
  · intro h
    have hp := h.2.2.2.2.2.2.2.2.2 (InteractionTable.index .Water .Hull)
    revert hp
    decide

end Sailing
